import Mathlib

/-!
Verification of the flight-scheduler core (`src/flight_scheduler/`).

The repository builds mixed-integer models for an external optimization
engine (Gurobi).  We shallowly embed the data model, the constraint sets
built by `constraint_manager.py` (`ConstraintManager._run_optimization`)
and by `enhanced_scheduler.py`, the schedule extraction, the
reoptimization workflow and the schedule differencer, and prove or refute
the frozen claims about them.

The engine itself is external: it is modelled as a function returning a
`SolveOutcome`; the theorems about produced schedules quantify over any
outcome whose assignment satisfies the constraints the code actually
builds.  Configuration weights come from `config.py`, which is not part of
the repository; values that the constraint code reads from it (the
minimum turnaround minutes) are parameters of the embedding.
-/

/-- `1` for a set binary decision variable, `0` otherwise. -/
def b2i (b : Bool) : Int := if b then 1 else 0

/-- Numeric value of a decimal digit character. -/
def digitVal (c : Char) : Int := (c.toNat : Int) - 48

/-- Split a character list at the first `':'` (the two parts of
`t.split(":")` for an `"HH:MM"` string). -/
def splitColon (l : List Char) : List Char × List Char :=
  match l with
  | [] => ([], [])
  | c :: rest =>
      if c = ':' then ([], rest)
      else
        let p := splitColon rest
        (c :: p.1, p.2)

/-- `int(...)` on a digit string. -/
def natOfDigits (l : List Char) : Int := l.foldl (fun acc c => acc * 10 + digitVal c) 0

/-- `parse_time`: convert an `"HH:MM"` string to minutes after midnight
(`int(t.split(":")[0]) * 60 + int(t.split(":")[1])`). -/
def parseTime (t : String) : Int :=
  let p := splitColon t.data
  natOfDigits p.1 * 60 + natOfDigits p.2

/-- A row of the flights table, times already preprocessed to minutes. -/
structure Flight where
  flightNumber : String
  origin : String
  destination : String
  cargoType : String
  cargoPriorityScore : Nat
  scheduledDepartureMin : Int
  slaDeliveryTimeMin : Int
  durationMinutes : Int
deriving DecidableEq

/-- A row of the aircraft table.  `inMaintenance` is kept as the raw cell
text because the source compares it with the string literal `'TRUE'`. -/
structure Aircraft where
  aircraftId : String
  inMaintenance : String
  maintenanceDue : Int
  readyTimeMin : Int
deriving DecidableEq

/-- A row of the crew table. -/
structure CrewMember where
  crewId : String
  onDuty : Bool
  maxDutyHours : Int
  hoursWorked : Int
  dutyStartMin : Int
deriving DecidableEq

/-- The Domain Data Store snapshot: the five tables and the two
compatibility matrices (looked up by identifier strings, as the source
does with `.loc`). -/
structure SchedInstance where
  flights : List Flight
  aircraft : List Aircraft
  crew : List CrewMember
  timeSlots : List String
  cert : String → String → Int
  gateway : String → String → Int

def dfltFlight : Flight :=
  { flightNumber := "", origin := "", destination := "", cargoType := ""
    cargoPriorityScore := 0, scheduledDepartureMin := 0
    slaDeliveryTimeMin := 0, durationMinutes := 0 }

def dfltAircraft : Aircraft :=
  { aircraftId := "", inMaintenance := "", maintenanceDue := 0, readyTimeMin := 0 }

def dfltCrew : CrewMember :=
  { crewId := "", onDuty := false, maxDutyHours := 0, hoursWorked := 0, dutyStartMin := 0 }

def flightAt (inst : SchedInstance) (f : Nat) : Flight := inst.flights.getD f dfltFlight

def aircraftAt (inst : SchedInstance) (a : Nat) : Aircraft := inst.aircraft.getD a dfltAircraft

def crewAt (inst : SchedInstance) (c : Nat) : CrewMember := inst.crew.getD c dfltCrew

/-- `parse_time(self.time_slots[t])`: the minute value of slot `t`. -/
def slotMin (inst : SchedInstance) (t : Nat) : Int := parseTime (inst.timeSlots.getD t "")

/-- One point of the decision-variable space of the built models (the
engine's variable assignment, read back through `.x`). -/
structure Assignment where
  departureTime : Nat → Int
  isTime : Nat → Nat → Bool
  aircraftUsed : Nat → Nat → Bool
  crewAssigned : Nat → Nat → Bool
  slaMissed : Nat → Bool
  gatewayViolation : Nat → Bool
  hazmatViolation : Nat → Bool
  volumeViolation : Nat → Bool
  minutesDelayed : Nat → Int
  overtime : Nat → Int
  fuelCost : Nat → Int

/-- `sum(parse_time(time_slots[t]) * is_time[f, t] for t)`: the chosen
departure minute of flight `f` under a one-hot slot selection. -/
def depSum (inst : SchedInstance) (asg : Assignment) (f : Nat) : Int :=
  ∑ t ∈ Finset.range inst.timeSlots.length, slotMin inst t * b2i (asg.isTime f t)

/-- The constraint set built by `ConstraintManager._run_optimization`
(`constraint_manager.py`, lines 143-179).  This is the model behind every
reoptimization run; note that it contains no SLA-indicator link, no
certification constraints and no turnaround constraints (the source calls
itself a "simplified version" of the enhanced scheduler). -/
structure CMFeasible (inst : SchedInstance) (asg : Assignment) : Prop where
  one_time : ∀ f ∈ Finset.range inst.flights.length,
    ∑ t ∈ Finset.range inst.timeSlots.length, b2i (asg.isTime f t) = 1
  dep_link : ∀ f ∈ Finset.range inst.flights.length,
    asg.departureTime f =
      ∑ t ∈ Finset.range inst.timeSlots.length, (t : Int) * b2i (asg.isTime f t)
  one_aircraft : ∀ f ∈ Finset.range inst.flights.length,
    ∑ a ∈ Finset.range inst.aircraft.length, b2i (asg.aircraftUsed f a) = 1
  one_crew : ∀ f ∈ Finset.range inst.flights.length,
    ∑ c ∈ Finset.range inst.crew.length, b2i (asg.crewAssigned f c) = 1
  delay_calc : ∀ f ∈ Finset.range inst.flights.length,
    depSum inst asg f - (flightAt inst f).scheduledDepartureMin ≤ asg.minutesDelayed f
  delay_nonneg : ∀ f ∈ Finset.range inst.flights.length, 0 ≤ asg.minutesDelayed f
  ac_no_double : ∀ a ∈ Finset.range inst.aircraft.length,
    ∀ t ∈ Finset.range inst.timeSlots.length,
      ∑ f ∈ Finset.range inst.flights.length,
        b2i (asg.aircraftUsed f a) * b2i (asg.isTime f t) ≤ 1
  ac_maint : ∀ a ∈ Finset.range inst.aircraft.length,
    ((aircraftAt inst a).inMaintenance = "TRUE" ∨ (aircraftAt inst a).maintenanceDue ≤ 0) →
      ∀ f ∈ Finset.range inst.flights.length, asg.aircraftUsed f a = false
  crew_no_double : ∀ c ∈ Finset.range inst.crew.length,
    ∀ t ∈ Finset.range inst.timeSlots.length,
      ∑ f ∈ Finset.range inst.flights.length,
        b2i (asg.crewAssigned f c) * b2i (asg.isTime f t) ≤ 1
  crew_unavail : ∀ c ∈ Finset.range inst.crew.length,
    (crewAt inst c).onDuty = false →
      ∀ f ∈ Finset.range inst.flights.length, asg.crewAssigned f c = false

/-- `FLIGHT_WINDOW_START = parse_time('02:00')`. -/
def windowStart : Int := parseTime "02:00"

/-- `FLIGHT_WINDOW_END = parse_time('08:00')`. -/
def windowEnd : Int := parseTime "08:00"

/-- The constraint set built by `enhanced_scheduler.py` (lines 103-209).
`MT` is `MinTurnaroundTimeMinutes` read from `config.py` (a configuration
input that is not part of the repository). -/
structure ESFeasible (MT : Int) (inst : SchedInstance) (asg : Assignment) : Prop where
  one_time : ∀ f ∈ Finset.range inst.flights.length,
    ∑ t ∈ Finset.range inst.timeSlots.length, b2i (asg.isTime f t) = 1
  dep_link : ∀ f ∈ Finset.range inst.flights.length,
    asg.departureTime f =
      ∑ t ∈ Finset.range inst.timeSlots.length, (t : Int) * b2i (asg.isTime f t)
  one_aircraft : ∀ f ∈ Finset.range inst.flights.length,
    ∑ a ∈ Finset.range inst.aircraft.length, b2i (asg.aircraftUsed f a) = 1
  one_crew : ∀ f ∈ Finset.range inst.flights.length,
    ∑ c ∈ Finset.range inst.crew.length, b2i (asg.crewAssigned f c) = 1
  dep_lb : ∀ f ∈ Finset.range inst.flights.length, 0 ≤ asg.departureTime f
  dep_ub : ∀ f ∈ Finset.range inst.flights.length,
    asg.departureTime f ≤ (inst.timeSlots.length : Int) - 1
  delay_calc : ∀ f ∈ Finset.range inst.flights.length,
    depSum inst asg f - (flightAt inst f).scheduledDepartureMin ≤ asg.minutesDelayed f
  delay_nonneg : ∀ f ∈ Finset.range inst.flights.length, 0 ≤ asg.minutesDelayed f
  sla_logic1 : ∀ f ∈ Finset.range inst.flights.length,
    depSum inst asg f ≤ (flightAt inst f).slaDeliveryTimeMin + 10000 * b2i (asg.slaMissed f)
  sla_logic2 : ∀ f ∈ Finset.range inst.flights.length,
    (flightAt inst f).slaDeliveryTimeMin + 1 - 10000 * (1 - b2i (asg.slaMissed f)) ≤
      depSum inst asg f
  cert_rule : ∀ f ∈ Finset.range inst.flights.length,
    ∀ a ∈ Finset.range inst.aircraft.length,
      ∀ c ∈ Finset.range inst.crew.length,
        inst.cert (aircraftAt inst a).aircraftId (crewAt inst c).crewId = 0 →
          b2i (asg.aircraftUsed f a) + b2i (asg.crewAssigned f c) ≤ 1
  gw_origin : ∀ f ∈ Finset.range inst.flights.length,
    ∀ a ∈ Finset.range inst.aircraft.length,
      inst.gateway (aircraftAt inst a).aircraftId (flightAt inst f).origin = 0 →
        b2i (asg.aircraftUsed f a) ≤ b2i (asg.gatewayViolation f)
  gw_dest : ∀ f ∈ Finset.range inst.flights.length,
    ∀ a ∈ Finset.range inst.aircraft.length,
      inst.gateway (aircraftAt inst a).aircraftId (flightAt inst f).destination = 0 →
        b2i (asg.aircraftUsed f a) ≤ b2i (asg.gatewayViolation f)
  ac_no_double : ∀ a ∈ Finset.range inst.aircraft.length,
    ∀ t ∈ Finset.range inst.timeSlots.length,
      ∑ f ∈ Finset.range inst.flights.length,
        b2i (asg.aircraftUsed f a) * b2i (asg.isTime f t) ≤ 1
  ac_maint : ∀ a ∈ Finset.range inst.aircraft.length,
    ((aircraftAt inst a).inMaintenance = "TRUE" ∨ (aircraftAt inst a).maintenanceDue ≤ 0) →
      ∀ f ∈ Finset.range inst.flights.length, asg.aircraftUsed f a = false
  crew_no_double : ∀ c ∈ Finset.range inst.crew.length,
    ∀ t ∈ Finset.range inst.timeSlots.length,
      ∑ f ∈ Finset.range inst.flights.length,
        b2i (asg.crewAssigned f c) * b2i (asg.isTime f t) ≤ 1
  ot_calc : ∀ c ∈ Finset.range inst.crew.length,
    (∑ f ∈ Finset.range inst.flights.length,
        b2i (asg.crewAssigned f c) * ((flightAt inst f).durationMinutes + MT)) -
      ((crewAt inst c).maxDutyHours * 60 - (crewAt inst c).hoursWorked * 60) ≤
      asg.overtime c
  ot_nonneg : ∀ c ∈ Finset.range inst.crew.length, 0 ≤ asg.overtime c
  turnaround_rule : ∀ a ∈ Finset.range inst.aircraft.length,
    ∀ f1 ∈ Finset.range inst.flights.length,
      ∀ f2 ∈ Finset.range inst.flights.length, f1 < f2 →
        ∀ t1 ∈ Finset.range inst.timeSlots.length,
          ∀ t2 ∈ Finset.range inst.timeSlots.length,
            abs (slotMin inst t1 - slotMin inst t2) < MT →
              b2i (asg.aircraftUsed f1 a) + b2i (asg.aircraftUsed f2 a) +
                b2i (asg.isTime f1 t1) + b2i (asg.isTime f2 t2) ≤ 3
  window_lo : ∀ f ∈ Finset.range inst.flights.length, windowStart ≤ depSum inst asg f
  window_hi : ∀ f ∈ Finset.range inst.flights.length, depSum inst asg f ≤ windowEnd
  fuel_base : ∀ f ∈ Finset.range inst.flights.length,
    (flightAt inst f).durationMinutes * 2 ≤ asg.fuelCost f
  fuel_delay : ∀ f ∈ Finset.range inst.flights.length,
    (flightAt inst f).durationMinutes * 2 + asg.minutesDelayed f ≤ asg.fuelCost f

/-- One entry of a produced Schedule: the dictionary appended per flight by
`ConstraintManager._extract_schedule`. -/
structure SchedRecord where
  flightNumber : String
  departureTime : String
  aircraft : String
  crew : String
  cargoType : String
  priority : Nat
  delay : Int
deriving DecidableEq

/-- Errors observable from the embedded workflow.  The source defines no
exception classes of its own: when the engine reports no solution, the
unconditional reads of `model.ObjVal` and `Var.x` in
`_run_optimization` / `_extract_schedule` raise the engine's
attribute-retrieval error, modelled by `gurobiAttributeError`.
`infeasibleModelError` follows the spec's words (spec §4.3/§7 name an
`InfeasibleModelError`); it exists only so the spec's claim can be stated
and compared with what the code does — no code path produces it. -/
inductive SchedulerError where
  | gurobiAttributeError
  | infeasibleModelError
deriving DecidableEq

/-- The `changes` value of a response: either a list of change lines or the
literal marker string `"Initial optimization"`. -/
inductive Changes where
  | list (lines : List String)
  | initial
deriving DecidableEq

/-- The result dictionary of `_run_optimization`
(`{objective_value, schedule, status}`). -/
structure RunResult where
  objectiveValue : Rat
  schedule : List SchedRecord
  status : Int
deriving DecidableEq

/-- A response dictionary as returned to callers.  `status`/`changes` are
`Option`s because not every code path puts those keys in the dictionary
(`get_current_schedule` with a cached baseline returns only `schedule` and
`objective_value`). -/
structure Response where
  schedule : List SchedRecord
  objectiveValue : Rat
  status : Option Int
  changes : Option Changes
deriving DecidableEq

/-- What the external engine hands back for one `model.optimize()` call:
a status code, and — when a solution is loaded — an assignment and an
objective value (`hasSolution = false` models the states in which reading
`ObjVal` or `.x` raises). -/
structure SolveOutcome where
  hasSolution : Bool
  assignment : Assignment
  objVal : Rat
  status : Int

/-- The mutable state of a `ConstraintManager`:
the loaded store plus `previous_schedule` / `previous_objective`. -/
structure CMState where
  store : SchedInstance
  previousSchedule : Option (List SchedRecord)
  previousObjective : Option Rat

/-- Python truthiness of `self.previous_schedule`
(`None` and the empty list are both falsy). -/
def isTruthy (s : Option (List SchedRecord)) : Bool :=
  match s with
  | some l => !l.isEmpty
  | none => false

/-- The `AircraftID` of the first aircraft index whose `aircraft_used`
variable is set for flight `f` (the `for a_idx ... break` loop of
`_extract_schedule`).  The `none` branch is unreachable for feasible
assignments: in the source `ac_idx` stays `None` there and the subsequent
`.loc[None]` raises. -/
def extractAircraftId (inst : SchedInstance) (asg : Assignment) (f : Nat) : String :=
  match (List.range inst.aircraft.length).find? (fun a => asg.aircraftUsed f a) with
  | some a => (aircraftAt inst a).aircraftId
  | none => ""

/-- The `CrewID` of the first crew index whose `crew_assigned` variable is
set for flight `f`. -/
def extractCrewId (inst : SchedInstance) (asg : Assignment) (f : Nat) : String :=
  match (List.range inst.crew.length).find? (fun c => asg.crewAssigned f c) with
  | some c => (crewAt inst c).crewId
  | none => ""

/-- `ConstraintManager._extract_schedule`: one record per flight, reading
the solved variable values. -/
def extractScheduleS (inst : SchedInstance) (asg : Assignment) : List SchedRecord :=
  (List.range inst.flights.length).map (fun f =>
    { flightNumber := (flightAt inst f).flightNumber
      departureTime := inst.timeSlots.getD (asg.departureTime f).toNat ""
      aircraft := extractAircraftId inst asg f
      crew := extractCrewId inst asg f
      cargoType := (flightAt inst f).cargoType
      priority := (flightAt inst f).cargoPriorityScore
      delay := asg.minutesDelayed f })

/-- `ConstraintManager._run_optimization`: build the model, call the
engine, read `model.ObjVal` and extract the schedule.  Without a loaded
solution the attribute reads fail. -/
def runOptimizationS (solve : SchedInstance → SolveOutcome) (inst : SchedInstance) :
    Except SchedulerError RunResult :=
  let oc := solve inst
  if oc.hasSolution then
    Except.ok { objectiveValue := oc.objVal
                schedule := extractScheduleS inst oc.assignment
                status := oc.status }
  else Except.error SchedulerError.gurobiAttributeError

/-- The change lines `_compare_schedules` emits for one zipped pair of
old/new flight records. -/
def pairChanges (o n : SchedRecord) : List String :=
  (if o.aircraft ≠ n.aircraft then
    ["Flight " ++ o.flightNumber ++ ": Aircraft changed from " ++ o.aircraft ++
      " to " ++ n.aircraft]
   else []) ++
  (if o.crew ≠ n.crew then
    ["Flight " ++ o.flightNumber ++ ": Crew changed from " ++ o.crew ++
      " to " ++ n.crew]
   else []) ++
  (if o.delay ≠ n.delay then
    (if 0 < n.delay - o.delay then
      ["Flight " ++ o.flightNumber ++ ": Delayed by " ++ toString (n.delay - o.delay) ++
        " minutes"]
     else if n.delay - o.delay < 0 then
      ["Flight " ++ o.flightNumber ++ ": Reduced delay by " ++
        toString (abs (n.delay - o.delay)) ++ " minutes"]
     else [])
   else [])

/-- `ConstraintManager._compare_schedules`: zip the two schedule lists
positionally, collect change lines, and fall back to the literal
`"No changes detected"` when none were collected. -/
def compareSchedules (old new : List SchedRecord) : List String :=
  let changes := (old.zip new).flatMap (fun p => pairChanges p.1 p.2)
  if changes.isEmpty then ["No changes detected"] else changes

/-- `ConstraintManager.reoptimize`: run the optimization, store the new
schedule/objective, and attach a `changes` entry — the diff against the
old baseline when a truthy baseline existed, the literal
`"Initial optimization"` otherwise.  An engine failure propagates before
`previous_schedule` is overwritten. -/
def reoptimizeS (solve : SchedInstance → SolveOutcome) (st : CMState) :
    Except SchedulerError Response × CMState :=
  match runOptimizationS solve st.store with
  | Except.error e => (Except.error e, st)
  | Except.ok r =>
      let changes :=
        if isTruthy st.previousSchedule then
          Changes.list (compareSchedules (st.previousSchedule.getD []) r.schedule)
        else Changes.initial
      (Except.ok { schedule := r.schedule
                   objectiveValue := r.objectiveValue
                   status := some r.status
                   changes := some changes },
       { st with previousSchedule := some r.schedule
                 previousObjective := some r.objectiveValue })

/-- `ConstraintManager.get_current_schedule`: return the cached
`{schedule, objective_value}` dictionary (no `status`, no `changes` key)
when a truthy baseline exists, else run the initial optimization. -/
def getCurrentScheduleS (solve : SchedInstance → SolveOutcome) (st : CMState) :
    Except SchedulerError Response × CMState :=
  if isTruthy st.previousSchedule then
    (Except.ok { schedule := st.previousSchedule.getD []
                 objectiveValue := st.previousObjective.getD 0
                 status := none
                 changes := none }, st)
  else reoptimizeS solve st

/-- Python `str()` of a bool, as interpolated into the audit-log line. -/
def pyBoolStr (b : Bool) : String := if b then "True" else "False"

/-- Externally visible file effects of a mutation call: the full-table CSV
rewrites and the audit-log append (`_log_change`; the `[timestamp] `
prefix comes from the wall clock and is not modelled). -/
inductive Effect where
  | writeCrewCsv (rows : List CrewMember)
  | writeAircraftCsv (rows : List Aircraft)
  | appendLog (line : String)
deriving DecidableEq

def isCsvWrite : Effect → Bool
  | Effect.writeCrewCsv _ => true
  | Effect.writeAircraftCsv _ => true
  | Effect.appendLog _ => false

def isLogAppend : Effect → Bool
  | Effect.appendLog _ => true
  | _ => false

/-- The in-memory effect of
`self.crew.loc[self.crew['CrewID'] == crew_id, 'OnDuty'] = available`:
every row whose `CrewID` matches is updated; an unknown id matches no row. -/
def applyCrewUpdate (inst : SchedInstance) (cid : String) (avail : Bool) : SchedInstance :=
  { inst with crew := inst.crew.map (fun c =>
      if c.crewId = cid then { c with onDuty := avail } else c) }

/-- The in-memory effect of
`self.aircraft.loc[self.aircraft['AircraftID'] == aircraft_id, 'MaintenanceDue'] = hours`. -/
def applyMaintenanceUpdate (inst : SchedInstance) (aid : String) (hours : Int) : SchedInstance :=
  { inst with aircraft := inst.aircraft.map (fun a =>
      if a.aircraftId = aid then { a with maintenanceDue := hours } else a) }

/-- `ConstraintManager.update_crew_availability`: mutate the crew table,
rewrite `crew.csv` in full, append one audit-log line, reoptimize and
return that result. -/
def updateCrewAvailabilityS (solve : SchedInstance → SolveOutcome) (st : CMState)
    (cid : String) (avail : Bool) :
    Except SchedulerError Response × CMState × List Effect :=
  let st1 : CMState := { st with store := applyCrewUpdate st.store cid avail }
  let effs := [Effect.writeCrewCsv st1.store.crew,
               Effect.appendLog ("Crew " ++ cid ++ " availability changed to " ++
                 pyBoolStr avail)]
  let r := reoptimizeS solve st1
  (r.1, r.2, effs)

/-- `ConstraintManager.add_maintenance_alert`: mutate the aircraft table,
rewrite `aircraft.csv` in full, append one audit-log line, reoptimize and
return that result. -/
def addMaintenanceAlertS (solve : SchedInstance → SolveOutcome) (st : CMState)
    (aid : String) (hours : Int) :
    Except SchedulerError Response × CMState × List Effect :=
  let st1 : CMState := { st with store := applyMaintenanceUpdate st.store aid hours }
  let effs := [Effect.writeAircraftCsv st1.store.aircraft,
               Effect.appendLog ("Aircraft " ++ aid ++ " maintenance due in " ++
                 toString hours ++ " hours")]
  let r := reoptimizeS solve st1
  (r.1, r.2, effs)

/-! ### Concrete instances used in counterexamples and witnesses -/

/-- The all-zero / all-false variable assignment. -/
def asgZero : Assignment :=
  { departureTime := fun _ => 0
    isTime := fun _ _ => false
    aircraftUsed := fun _ _ => false
    crewAssigned := fun _ _ => false
    slaMissed := fun _ => false
    gatewayViolation := fun _ => false
    hazmatViolation := fun _ => false
    volumeViolation := fun _ => false
    minutesDelayed := fun _ => 0
    overtime := fun _ => 0
    fuelCost := fun _ => 0 }

/-- One flight whose SLA deadline (01:40 = minute 100) lies before the only
available slot (02:00 = minute 120). -/
def instC1 : SchedInstance :=
  { flights := [{ flightNumber := "F1", origin := "SDF", destination := "ORD"
                  cargoType := "Standard", cargoPriorityScore := 5
                  scheduledDepartureMin := 120, slaDeliveryTimeMin := 100
                  durationMinutes := 60 }]
    aircraft := [{ aircraftId := "A101", inMaintenance := "FALSE"
                   maintenanceDue := 100, readyTimeMin := 0 }]
    crew := [{ crewId := "C01", onDuty := true, maxDutyHours := 10
               hoursWorked := 0, dutyStartMin := 0 }]
    timeSlots := ["02:00"]
    cert := fun _ _ => 1
    gateway := fun _ _ => 1 }

/-- An assignment for `instC1` that departs past the SLA deadline while
keeping `sla_missed = 0`. -/
def asgC1 : Assignment :=
  { asgZero with
    isTime := fun f t => f == 0 && t == 0
    aircraftUsed := fun f a => f == 0 && a == 0
    crewAssigned := fun f c => f == 0 && c == 0
    minutesDelayed := fun _ => 0 }

/-- The engine stub used in witnesses and counterexamples: always reports
a loaded solution with objective `0`, status `2` (optimal) and the
assignment `asgC1`. -/
def solveW : SchedInstance → SolveOutcome := fun _ =>
  { hasSolution := true, assignment := asgC1, objVal := 0, status := 2 }

def stW : CMState := { store := instC1, previousSchedule := none, previousObjective := none }

/-- No constraint of the `ConstraintManager` model mentions `sla_missed`:
the indicator can be set arbitrarily on any feasible assignment (the
positive penalty in the objective in fact drives the engine to `0`). -/
lemma cmFeasible_slaMissed_free (inst : SchedInstance) (asg : Assignment)
    (s : Nat → Bool) (h : CMFeasible inst asg) :
    CMFeasible inst { asg with slaMissed := s } :=
  ⟨h.one_time, h.dep_link, h.one_aircraft, h.one_crew, h.delay_calc, h.delay_nonneg,
    h.ac_no_double, h.ac_maint, h.crew_no_double, h.crew_unavail⟩

/-- C1 counterexample: in the `ConstraintManager` model — the model behind
every reoptimization run — `sla_missed` is not linked to the chosen
departure at all, so a produced schedule can depart strictly after the SLA
deadline with `sla_missed = 0`. -/
theorem c1_counterexample :
    CMFeasible instC1 asgC1 ∧
    (flightAt instC1 0).slaDeliveryTimeMin < depSum instC1 asgC1 0 ∧
    asgC1.slaMissed 0 = false ∧
    (reoptimizeS solveW stW).1 =
      Except.ok { schedule := [{ flightNumber := "F1", departureTime := "02:00"
                                 aircraft := "A101", crew := "C01"
                                 cargoType := "Standard", priority := 5, delay := 0 }]
                  objectiveValue := 0, status := some 2
                  changes := some Changes.initial } := by
  refine ⟨?_, by decide, by decide, rfl⟩
  constructor <;> decide

/-- One flight, one aircraft, one crew member, with the pair
`(A101, C01)` marked `0` (disallowed) in the certification matrix. -/
def instC2 : SchedInstance :=
  { flights := [{ flightNumber := "F1", origin := "SDF", destination := "ORD"
                  cargoType := "Standard", cargoPriorityScore := 5
                  scheduledDepartureMin := 120, slaDeliveryTimeMin := 300
                  durationMinutes := 60 }]
    aircraft := [{ aircraftId := "A101", inMaintenance := "FALSE"
                   maintenanceDue := 100, readyTimeMin := 0 }]
    crew := [{ crewId := "C01", onDuty := true, maxDutyHours := 10
               hoursWorked := 0, dutyStartMin := 0 }]
    timeSlots := ["02:00"]
    cert := fun _ _ => 0
    gateway := fun _ _ => 1 }

def stC2 : CMState := { store := instC2, previousSchedule := none, previousObjective := none }

/-- C2 counterexample: the `ConstraintManager` model contains no
certification constraints, so the uncertified pair `(A101, C01)` is
jointly assigned to flight `F1` in a feasible (indeed, the only possible)
assignment, and a reoptimization run over `instC2` produces exactly that
schedule. -/
theorem c2_counterexample :
    CMFeasible instC2 asgC1 ∧
    instC2.cert (aircraftAt instC2 0).aircraftId (crewAt instC2 0).crewId = 0 ∧
    asgC1.aircraftUsed 0 0 = true ∧
    asgC1.crewAssigned 0 0 = true ∧
    (reoptimizeS solveW stC2).1 =
      Except.ok { schedule := [{ flightNumber := "F1", departureTime := "02:00"
                                 aircraft := "A101", crew := "C01"
                                 cargoType := "Standard", priority := 5, delay := 0 }]
                  objectiveValue := 0, status := some 2
                  changes := some Changes.initial } := by
  refine ⟨?_, by decide, by decide, by decide, rfl⟩
  constructor <;> decide

/-- Two flights, one aircraft, two slots one minute apart (02:00, 02:01). -/
def instC3 : SchedInstance :=
  { flights := [{ flightNumber := "F1", origin := "SDF", destination := "ORD"
                  cargoType := "Standard", cargoPriorityScore := 5
                  scheduledDepartureMin := 120, slaDeliveryTimeMin := 300
                  durationMinutes := 60 },
                { flightNumber := "F2", origin := "SDF", destination := "ORD"
                  cargoType := "Standard", cargoPriorityScore := 5
                  scheduledDepartureMin := 120, slaDeliveryTimeMin := 300
                  durationMinutes := 60 }]
    aircraft := [{ aircraftId := "A101", inMaintenance := "FALSE"
                   maintenanceDue := 100, readyTimeMin := 0 }]
    crew := [{ crewId := "C01", onDuty := true, maxDutyHours := 10
               hoursWorked := 0, dutyStartMin := 0 }]
    timeSlots := ["02:00", "02:01"]
    cert := fun _ _ => 1
    gateway := fun _ _ => 1 }

/-- Both flights on the single aircraft `A101`, in adjacent slots. -/
def asgC3 : Assignment :=
  { asgZero with
    departureTime := fun f => if f == 0 then 0 else 1
    isTime := fun f t => (f == 0 && t == 0) || (f == 1 && t == 1)
    aircraftUsed := fun f a => (f == 0 || f == 1) && a == 0
    crewAssigned := fun f c => (f == 0 || f == 1) && c == 0
    minutesDelayed := fun f => if f == 0 then 0 else 1 }

/-- An engine stub returning `asgC3`. -/
def solveC3 : SchedInstance → SolveOutcome := fun _ =>
  { hasSolution := true, assignment := asgC3, objVal := 0, status := 2 }

def stC3 : CMState := { store := instC3, previousSchedule := none, previousObjective := none }

/-- C3 counterexample: the `ConstraintManager` model only forbids two
flights on the same aircraft in the *same* slot, so with the minimum
turnaround configured as 90 minutes the single aircraft `A101` is
feasibly assigned to two flights whose chosen departures are only one
minute apart — and a reoptimization run over `instC3` produces exactly
that schedule. -/
theorem c3_counterexample :
    CMFeasible instC3 asgC3 ∧
    asgC3.aircraftUsed 0 0 = true ∧
    asgC3.aircraftUsed 1 0 = true ∧
    asgC3.isTime 0 0 = true ∧
    asgC3.isTime 1 1 = true ∧
    abs (slotMin instC3 0 - slotMin instC3 1) < 90 ∧
    (reoptimizeS solveC3 stC3).1 =
      Except.ok { schedule := [{ flightNumber := "F1", departureTime := "02:00"
                                 aircraft := "A101", crew := "C01"
                                 cargoType := "Standard", priority := 5, delay := 0 },
                               { flightNumber := "F2", departureTime := "02:01"
                                 aircraft := "A101", crew := "C01"
                                 cargoType := "Standard", priority := 5, delay := 1 }]
                  objectiveValue := 0, status := some 2
                  changes := some Changes.initial } := by
  refine ⟨?_, by decide, by decide, by decide, by decide, by decide, rfl⟩
  constructor <;> decide

/-! ### C1-C3: the enhanced-scheduler model does enforce the claimed
invariants; the amended claims are proved against `ESFeasible`. -/

/-- C1 (amended): in the enhanced-scheduler model
(`sla_miss_logic1/2`, `enhanced_scheduler.py` lines 125-132), every
feasible assignment has `sla_missed f = 1` exactly when the chosen
departure minute strictly exceeds the flight's SLA deadline minute. -/
theorem c1_sla_indicator (MT : Int) (inst : SchedInstance) (asg : Assignment)
    (h : ESFeasible MT inst asg) (f : Nat) (hf : f < inst.flights.length) :
    (asg.slaMissed f = true ↔
      (flightAt inst f).slaDeliveryTimeMin < depSum inst asg f) := by
  have h1 := h.sla_logic1 f (Finset.mem_range.mpr hf)
  have h2 := h.sla_logic2 f (Finset.mem_range.mpr hf)
  cases hb : asg.slaMissed f
  · rw [hb] at h1
    norm_num [b2i] at h1
    simp only [Bool.false_eq_true, false_iff, not_lt]
    omega
  · rw [hb] at h2
    norm_num [b2i] at h2
    simp only [true_iff]
    omega

/-- C2 (amended): in the enhanced-scheduler model (`cert_...` constraints,
`enhanced_scheduler.py` lines 134-138), no feasible assignment jointly
assigns a flight an aircraft-crew pair marked `0` in the certification
matrix. -/
theorem c2_certification (MT : Int) (inst : SchedInstance) (asg : Assignment)
    (h : ESFeasible MT inst asg) (f a c : Nat)
    (hf : f < inst.flights.length) (ha : a < inst.aircraft.length)
    (hc : c < inst.crew.length)
    (hcert : inst.cert (aircraftAt inst a).aircraftId (crewAt inst c).crewId = 0) :
    ¬(asg.aircraftUsed f a = true ∧ asg.crewAssigned f c = true) := by
  rintro ⟨h1, h2⟩
  have h3 := h.cert_rule f (Finset.mem_range.mpr hf) a (Finset.mem_range.mpr ha)
    c (Finset.mem_range.mpr hc) hcert
  rw [h1, h2] at h3
  norm_num [b2i] at h3

/-- C3 (amended): in the enhanced-scheduler model (`turnaround_...`
constraints, `enhanced_scheduler.py` lines 179-190), whenever one aircraft
serves two distinct flights, their chosen slots are at least the
configured minimum turnaround apart (the same slot included, since its
distance `0` is below any positive turnaround). -/
theorem c3_turnaround (MT : Int) (inst : SchedInstance) (asg : Assignment)
    (h : ESFeasible MT inst asg) (f1 f2 a t1 t2 : Nat)
    (hf1 : f1 < inst.flights.length) (hf2 : f2 < inst.flights.length)
    (ha : a < inst.aircraft.length)
    (ht1 : t1 < inst.timeSlots.length) (ht2 : t2 < inst.timeSlots.length)
    (hne : f1 ≠ f2)
    (hu1 : asg.aircraftUsed f1 a = true) (hu2 : asg.aircraftUsed f2 a = true)
    (hs1 : asg.isTime f1 t1 = true) (hs2 : asg.isTime f2 t2 = true) :
    MT ≤ abs (slotMin inst t1 - slotMin inst t2) := by
  by_contra hcon
  push_neg at hcon
  rcases Nat.lt_or_ge f1 f2 with h12 | h21
  · have h3 := h.turnaround_rule a (Finset.mem_range.mpr ha)
      f1 (Finset.mem_range.mpr hf1) f2 (Finset.mem_range.mpr hf2) h12
      t1 (Finset.mem_range.mpr ht1) t2 (Finset.mem_range.mpr ht2) hcon
    rw [hu1, hu2, hs1, hs2] at h3
    norm_num [b2i] at h3
  · have h21' : f2 < f1 := Nat.lt_of_le_of_ne h21 (Ne.symm hne)
    have habs : abs (slotMin inst t2 - slotMin inst t1) < MT := by
      rw [abs_sub_comm]; exact hcon
    have h3 := h.turnaround_rule a (Finset.mem_range.mpr ha)
      f2 (Finset.mem_range.mpr hf2) f1 (Finset.mem_range.mpr hf1) h21'
      t2 (Finset.mem_range.mpr ht2) t1 (Finset.mem_range.mpr ht1) habs
    rw [hu1, hu2, hs1, hs2] at h3
    norm_num [b2i] at h3

/-- Two flights, one aircraft, one crew member, two slots 120 minutes
apart; a fully feasible enhanced-scheduler scenario. -/
def instES : SchedInstance :=
  { flights := [{ flightNumber := "F1", origin := "SDF", destination := "ORD"
                  cargoType := "Standard", cargoPriorityScore := 5
                  scheduledDepartureMin := 120, slaDeliveryTimeMin := 300
                  durationMinutes := 60 },
                { flightNumber := "F2", origin := "SDF", destination := "ORD"
                  cargoType := "Standard", cargoPriorityScore := 5
                  scheduledDepartureMin := 120, slaDeliveryTimeMin := 300
                  durationMinutes := 60 }]
    aircraft := [{ aircraftId := "A101", inMaintenance := "FALSE"
                   maintenanceDue := 100, readyTimeMin := 0 }]
    crew := [{ crewId := "C01", onDuty := true, maxDutyHours := 10
               hoursWorked := 0, dutyStartMin := 0 }]
    timeSlots := ["02:00", "04:00"]
    cert := fun _ _ => 1
    gateway := fun _ _ => 1 }

/-- A feasible enhanced-scheduler assignment for `instES`: flight 1 at
02:00, flight 2 at 04:00, both on the single aircraft and crew member. -/
def asgES : Assignment :=
  { departureTime := fun f => if f == 0 then 0 else 1
    isTime := fun f t => (f == 0 && t == 0) || (f == 1 && t == 1)
    aircraftUsed := fun f a => (f == 0 || f == 1) && a == 0
    crewAssigned := fun f c => (f == 0 || f == 1) && c == 0
    slaMissed := fun _ => false
    gatewayViolation := fun _ => false
    hazmatViolation := fun _ => false
    volumeViolation := fun _ => false
    minutesDelayed := fun f => if f == 0 then 0 else 120
    overtime := fun _ => 0
    fuelCost := fun f => if f == 0 then 120 else 240 }

lemma esFeasible_instES : ESFeasible 90 instES asgES := by
  constructor <;> decide

/-- `instES` with a second crew member and the pair `(A101, C02)` marked
`0` in the certification matrix (the assignment only ever uses `C01`). -/
def instES2 : SchedInstance :=
  { instES with
    crew := [{ crewId := "C01", onDuty := true, maxDutyHours := 10
               hoursWorked := 0, dutyStartMin := 0 },
              { crewId := "C02", onDuty := true, maxDutyHours := 10
                hoursWorked := 0, dutyStartMin := 0 }]
    cert := fun a c => if a == "A101" && c == "C02" then 0 else 1 }

lemma esFeasible_instES2 : ESFeasible 90 instES2 asgES := by
  constructor <;> decide

/-- C1 witness: the amended theorem evaluated on `instES`, flight 0
(departure 02:00, SLA deadline 05:00, `sla_missed = 0`). -/
theorem c1_witness :
    (0 < instES.flights.length) ∧
    (asgES.slaMissed 0 = true ↔
      (flightAt instES 0).slaDeliveryTimeMin < depSum instES asgES 0) :=
  ⟨by decide, c1_sla_indicator 90 instES asgES esFeasible_instES 0 (by decide)⟩

/-- C2 witness: the amended theorem evaluated on `instES2`, flight 0,
aircraft `A101`, crew `C02` (an uncertified pair, not jointly used). -/
theorem c2_witness :
    instES2.cert (aircraftAt instES2 0).aircraftId (crewAt instES2 1).crewId = 0 ∧
    ¬(asgES.aircraftUsed 0 0 = true ∧ asgES.crewAssigned 0 1 = true) :=
  ⟨by decide, c2_certification 90 instES2 asgES esFeasible_instES2 0 0 1
    (by decide) (by decide) (by decide) (by decide)⟩

/-- C3 witness: the amended theorem evaluated on `instES`: the two flights
share aircraft `A101` in slots 02:00 and 04:00, which are at least the
configured 90-minute turnaround apart. -/
theorem c3_witness :
    asgES.aircraftUsed 0 0 = true ∧ asgES.aircraftUsed 1 0 = true ∧
    (90 : Int) ≤ abs (slotMin instES 0 - slotMin instES 1) :=
  ⟨by decide, by decide,
    c3_turnaround 90 instES asgES esFeasible_instES 0 1 0 0 1
      (by decide) (by decide) (by decide) (by decide) (by decide) (by decide)
      (by decide) (by decide) (by decide) (by decide)⟩

/-! ### C4: maintenance exclusion in the `ConstraintManager` model -/

lemma list_getD_map {α : Type} (g : α → α) (d : α) :
    ∀ (l : List α) (i : Nat), i < l.length → (l.map g).getD i d = g (l.getD i d) := by
  intro l
  induction l with
  | nil => intro i hi; simp at hi
  | cons a tl ih =>
      intro i hi
      cases i with
      | zero => rfl
      | succ n => exact ih n (Nat.lt_of_succ_lt_succ hi)

lemma b2i_sum_one_exists {g : Nat → Bool} {n : Nat}
    (h : ∑ a ∈ Finset.range n, b2i (g a) = 1) : ∃ a, a < n ∧ g a = true := by
  by_contra hc
  push_neg at hc
  have hz : ∀ a ∈ Finset.range n, b2i (g a) = 0 := by
    intro a ha
    have hnot := hc a (Finset.mem_range.mp ha)
    cases hga : g a
    · simp [b2i]
    · exact absurd hga hnot
  rw [Finset.sum_congr rfl hz] at h
  simp at h

/-- C4: after `add_maintenance_alert` sets an aircraft's `MaintenanceDue`
to a value `≤ 0`, the `ac_maint` constraints force every `aircraft_used`
variable of every matching aircraft index to `0`, and the extracted
Schedule assigns that aircraft identifier to no flight; likewise, an
aircraft whose `InMaintenance` cell is the string `'TRUE'` is assigned to
no flight. -/
theorem c4_maintenance_exclusion :
    (∀ (inst : SchedInstance) (aid : String) (hours : Int) (asg : Assignment),
      hours ≤ 0 →
      CMFeasible (applyMaintenanceUpdate inst aid hours) asg →
      (∀ aIdx, aIdx < inst.aircraft.length →
        (aircraftAt (applyMaintenanceUpdate inst aid hours) aIdx).aircraftId = aid →
        ∀ f, f < inst.flights.length → asg.aircraftUsed f aIdx = false) ∧
      (∀ rec ∈ extractScheduleS (applyMaintenanceUpdate inst aid hours) asg,
        rec.aircraft ≠ aid)) ∧
    (∀ (inst : SchedInstance) (asg : Assignment) (aIdx : Nat),
      CMFeasible inst asg → aIdx < inst.aircraft.length →
      (aircraftAt inst aIdx).inMaintenance = "TRUE" →
      ∀ f, f < inst.flights.length → asg.aircraftUsed f aIdx = false) := by
  constructor
  · intro inst aid hours asg hh hfeas
    have hlen : (applyMaintenanceUpdate inst aid hours).aircraft.length =
        inst.aircraft.length := by
      simp [applyMaintenanceUpdate]
    have main : ∀ aIdx, aIdx < inst.aircraft.length →
        (aircraftAt (applyMaintenanceUpdate inst aid hours) aIdx).aircraftId = aid →
        ∀ f, f < inst.flights.length → asg.aircraftUsed f aIdx = false := by
      intro aIdx haIdx hid f hf
      have hga : aircraftAt (applyMaintenanceUpdate inst aid hours) aIdx =
          (if (aircraftAt inst aIdx).aircraftId = aid
            then { aircraftAt inst aIdx with maintenanceDue := hours }
            else aircraftAt inst aIdx) :=
        list_getD_map _ _ inst.aircraft aIdx haIdx
      have hdue : (aircraftAt (applyMaintenanceUpdate inst aid hours) aIdx).maintenanceDue ≤ 0 := by
        by_cases hcase : (aircraftAt inst aIdx).aircraftId = aid
        · rw [hga, if_pos hcase]
          exact hh
        · rw [hga, if_neg hcase] at hid
          exact absurd hid hcase
      exact hfeas.ac_maint aIdx (Finset.mem_range.mpr (hlen ▸ haIdx)) (Or.inr hdue)
        f (Finset.mem_range.mpr hf)
    refine ⟨main, ?_⟩
    intro rec hrec
    obtain ⟨f, hfmem, hbody⟩ := List.mem_map.mp hrec
    have hf : f < inst.flights.length := List.mem_range.mp hfmem
    have haircraft : extractAircraftId (applyMaintenanceUpdate inst aid hours) asg f =
        rec.aircraft := congrArg SchedRecord.aircraft hbody
    rw [← haircraft]
    unfold extractAircraftId
    cases hfind : (List.range (applyMaintenanceUpdate inst aid hours).aircraft.length).find?
        (fun a => asg.aircraftUsed f a) with
    | none =>
        exfalso
        have hone := hfeas.one_aircraft f (Finset.mem_range.mpr hf)
        obtain ⟨a, halt, htrue⟩ := b2i_sum_one_exists hone
        have hnone := List.find?_eq_none.mp hfind a (List.mem_range.mpr halt)
        simp at hnone
        rw [htrue] at hnone
        exact Bool.noConfusion hnone
    | some a =>
        have hlt : a < (applyMaintenanceUpdate inst aid hours).aircraft.length :=
          List.mem_range.mp (List.mem_of_find?_eq_some hfind)
        have htrue : asg.aircraftUsed f a = true := by
          have hp := List.find?_some hfind
          simpa using hp
        intro hid
        have hfalse := main a (hlen ▸ hlt) hid f hf
        rw [hfalse] at htrue
        exact Bool.noConfusion htrue
  · intro inst asg aIdx hfeas haIdx hflag f hf
    exact hfeas.ac_maint aIdx (Finset.mem_range.mpr haIdx) (Or.inl hflag)
      f (Finset.mem_range.mpr hf)

/-- One flight, two aircraft, the first of which is sent into maintenance. -/
def instC4 : SchedInstance :=
  { flights := [{ flightNumber := "F1", origin := "SDF", destination := "ORD"
                  cargoType := "Standard", cargoPriorityScore := 5
                  scheduledDepartureMin := 120, slaDeliveryTimeMin := 300
                  durationMinutes := 60 }]
    aircraft := [{ aircraftId := "A101", inMaintenance := "FALSE"
                   maintenanceDue := 100, readyTimeMin := 0 },
                 { aircraftId := "A102", inMaintenance := "FALSE"
                   maintenanceDue := 100, readyTimeMin := 0 }]
    crew := [{ crewId := "C01", onDuty := true, maxDutyHours := 10
               hoursWorked := 0, dutyStartMin := 0 }]
    timeSlots := ["02:00"]
    cert := fun _ _ => 1
    gateway := fun _ _ => 1 }

/-- The flight on the second aircraft (`A102`), first aircraft unused. -/
def asgC4 : Assignment :=
  { asgZero with
    isTime := fun f t => f == 0 && t == 0
    aircraftUsed := fun f a => f == 0 && a == 1
    crewAssigned := fun f c => f == 0 && c == 0 }

lemma cmFeasible_c4 : CMFeasible (applyMaintenanceUpdate instC4 "A101" 0) asgC4 := by
  constructor <;> decide

/-- C4 witness: the theorem evaluated after `add_maintenance_alert("A101", 0)`
on `instC4`: aircraft index 0 (`A101`) serves no flight. -/
theorem c4_witness :
    ((0 : Int) ≤ 0) ∧ CMFeasible (applyMaintenanceUpdate instC4 "A101" 0) asgC4 ∧
    asgC4.aircraftUsed 0 0 = false :=
  ⟨by decide, cmFeasible_c4,
    (c4_maintenance_exclusion.1 instC4 "A101" 0 asgC4 (by decide) cmFeasible_c4).1
      0 (by decide) (by decide) 0 (by decide)⟩

/-! ### C5: the Schedule Differencer is positional, not keyed on flight id -/

/-- A first flight record. -/
def recA : SchedRecord :=
  { flightNumber := "F1", departureTime := "02:00", aircraft := "A101"
    crew := "C01", cargoType := "Standard", priority := 5, delay := 0 }

/-- A second flight record. -/
def recB : SchedRecord :=
  { flightNumber := "F2", departureTime := "02:00", aircraft := "A102"
    crew := "C02", cargoType := "Standard", priority := 5, delay := 0 }

/-- C5 counterexample: the two compared schedules hold exactly the same
flight records (identifiers `F1`, `F2`), only in different orders.
Identifier-based matching would report no changes; the zip-based
`_compare_schedules` reports four spurious aircraft/crew changes, so the
reported changes depend on list order. -/
theorem c5_counterexample :
    compareSchedules [recA, recB] [recA, recB] = ["No changes detected"] ∧
    compareSchedules [recA, recB] [recB, recA] =
      ["Flight F1: Aircraft changed from A101 to A102",
       "Flight F1: Crew changed from C01 to C02",
       "Flight F2: Aircraft changed from A102 to A101",
       "Flight F2: Crew changed from C02 to C01"] ∧
    compareSchedules [recA, recB] [recB, recA] ≠ ["No changes detected"] := by
  refine ⟨by decide, by decide, by decide⟩

/-! ### C6: recompute twice with no intervening mutation -/

lemma pairChanges_self (r : SchedRecord) : pairChanges r r = [] := by
  simp [pairChanges]

lemma compareSchedules_self (s : List SchedRecord) :
    compareSchedules s s = ["No changes detected"] := by
  have hz : (s.zip s).flatMap (fun p => pairChanges p.1 p.2) = [] := by
    induction s with
    | nil => rfl
    | cons a tl ih => simp [pairChanges_self, ih]
  simp [compareSchedules, hz]

lemma isTruthy_some_of_ne {l : List SchedRecord} (h : l ≠ []) :
    isTruthy (some l) = true := by
  cases l with
  | nil => exact absurd rfl h
  | cons a tl => rfl

/-- C6 (amended): if a `reoptimize` call succeeds with a non-empty
schedule, then a second `reoptimize` with no intervening mutation returns
the identical schedule, objective and status, with
`changes = ["No changes detected"]`.  (Non-emptiness matters: an empty
schedule is falsy in Python, so `reoptimize` would treat it as a missing
baseline — see the counterexample.) -/
theorem c6_recompute_idempotent (solve : SchedInstance → SolveOutcome) (st : CMState)
    (r1 : Response) (hok : (reoptimizeS solve st).1 = Except.ok r1)
    (hne : r1.schedule ≠ []) :
    (reoptimizeS solve (reoptimizeS solve st).2).1 =
      Except.ok { schedule := r1.schedule, objectiveValue := r1.objectiveValue
                  status := r1.status
                  changes := some (Changes.list ["No changes detected"]) } := by
  cases hrun : runOptimizationS solve st.store with
  | error e => simp [reoptimizeS, hrun] at hok
  | ok r =>
      have hr1 : r1 = { schedule := r.schedule, objectiveValue := r.objectiveValue
                        status := some r.status
                        changes := some (if isTruthy st.previousSchedule then
                          Changes.list
                            (compareSchedules (st.previousSchedule.getD []) r.schedule)
                          else Changes.initial) } := by
        simp [reoptimizeS, hrun] at hok
        exact hok.symm
      subst hr1
      have htruthy : isTruthy (some r.schedule) = true := isTruthy_some_of_ne hne
      simp [reoptimizeS, hrun, htruthy, compareSchedules_self]

/-- C6 witness: on `instC1` the first run returns `[recA]` with
`changes = Initial optimization`; the theorem then gives the second run's
response verbatim. -/
theorem c6_witness :
    (reoptimizeS solveW stW).1 =
      Except.ok { schedule := [recA], objectiveValue := 0, status := some 2
                  changes := some Changes.initial } ∧
    ([recA] : List SchedRecord) ≠ [] ∧
    (reoptimizeS solveW (reoptimizeS solveW stW).2).1 =
      Except.ok { schedule := [recA], objectiveValue := 0, status := some 2
                  changes := some (Changes.list ["No changes detected"]) } :=
  ⟨rfl, by decide,
    c6_recompute_idempotent solveW stW
      { schedule := [recA], objectiveValue := 0, status := some 2
        changes := some Changes.initial } rfl (by decide)⟩

/-- The empty store: no flights at all. -/
def instEmpty : SchedInstance :=
  { flights := [], aircraft := [], crew := [], timeSlots := []
    cert := fun _ _ => 1, gateway := fun _ _ => 1 }

def stEmpty : CMState :=
  { store := instEmpty, previousSchedule := none, previousObjective := none }

/-- C6 counterexample: with an empty flight set both runs return the
identical (empty) schedule, but the stored baseline `[]` is falsy, so the
second call reports the literal `Initial optimization` instead of
`["No changes detected"]`. -/
theorem c6_counterexample :
    (reoptimizeS solveW stEmpty).1 =
      Except.ok { schedule := [], objectiveValue := 0, status := some 2
                  changes := some Changes.initial } ∧
    (reoptimizeS solveW (reoptimizeS solveW stEmpty).2).1 =
      Except.ok { schedule := [], objectiveValue := 0, status := some 2
                  changes := some Changes.initial } ∧
    some Changes.initial ≠ some (Changes.list ["No changes detected"]) :=
  ⟨rfl, rfl, by decide⟩

/-! ### C7/C10: mutation operations -/

lemma list_map_id_of {α : Type} (l : List α) (g : α → α) (h : ∀ x ∈ l, g x = x) :
    l.map g = l := by
  induction l with
  | nil => rfl
  | cons a tl ih =>
      rw [List.map_cons, h a (List.mem_cons_self a tl),
        ih (fun x hx => h x (List.mem_cons_of_mem a hx))]

lemma reoptimizeS_store (solve : SchedInstance → SolveOutcome) (st : CMState) :
    (reoptimizeS solve st).2.store = st.store := by
  cases hrun : runOptimizationS solve st.store with
  | error e => simp [reoptimizeS, hrun]
  | ok r => simp [reoptimizeS, hrun]

/-- C7: `update_crew_availability` / `add_maintenance_alert` called with an
identifier not present in the store return successfully (they are total
and proceed to reoptimize) and leave every crew and aircraft record
unchanged: the `.loc` row selection matches no row. -/
theorem c7_unknown_id_noop :
    ∀ (solve : SchedInstance → SolveOutcome) (st : CMState)
      (cid aid : String) (avail : Bool) (hours : Int),
    (cid ∉ st.store.crew.map CrewMember.crewId →
      (updateCrewAvailabilityS solve st cid avail).2.1.store.crew = st.store.crew ∧
      (updateCrewAvailabilityS solve st cid avail).2.1.store.aircraft = st.store.aircraft) ∧
    (aid ∉ st.store.aircraft.map Aircraft.aircraftId →
      (addMaintenanceAlertS solve st aid hours).2.1.store.aircraft = st.store.aircraft ∧
      (addMaintenanceAlertS solve st aid hours).2.1.store.crew = st.store.crew) := by
  intro solve st cid aid avail hours
  constructor
  · intro hnot
    have h1 : (updateCrewAvailabilityS solve st cid avail).2.1.store =
        applyCrewUpdate st.store cid avail :=
      reoptimizeS_store solve { st with store := applyCrewUpdate st.store cid avail }
    have hcrew : (applyCrewUpdate st.store cid avail).crew = st.store.crew := by
      refine list_map_id_of _ _ ?_
      intro c hc
      have hne : c.crewId ≠ cid := fun he => hnot (he ▸ List.mem_map_of_mem _ hc)
      rw [if_neg hne]
    exact ⟨by rw [h1]; exact hcrew, by rw [h1]; rfl⟩
  · intro hnot
    have h1 : (addMaintenanceAlertS solve st aid hours).2.1.store =
        applyMaintenanceUpdate st.store aid hours :=
      reoptimizeS_store solve { st with store := applyMaintenanceUpdate st.store aid hours }
    have hair : (applyMaintenanceUpdate st.store aid hours).aircraft = st.store.aircraft := by
      refine list_map_id_of _ _ ?_
      intro a ha
      have hne : a.aircraftId ≠ aid := fun he => hnot (he ▸ List.mem_map_of_mem _ ha)
      rw [if_neg hne]
    exact ⟨by rw [h1]; exact hair, by rw [h1]; rfl⟩

/-- C7 witness: the theorem evaluated with the unknown identifiers `C99`
and `A99` against the one-crew, one-aircraft store `instC1`. -/
theorem c7_witness :
    ("C99" ∉ stW.store.crew.map CrewMember.crewId) ∧
    ("A99" ∉ stW.store.aircraft.map Aircraft.aircraftId) ∧
    (updateCrewAvailabilityS solveW stW "C99" false).2.1.store.crew = stW.store.crew ∧
    (addMaintenanceAlertS solveW stW "A99" 5).2.1.store.aircraft = stW.store.aircraft :=
  ⟨by decide, by decide,
    ((c7_unknown_id_noop solveW stW "C99" "A99" false 5).1 (by decide)).1,
    ((c7_unknown_id_noop solveW stW "C99" "A99" false 5).2 (by decide)).1⟩

/-- C10: every mutation call — the identifier need not exist — rewrites
the full corresponding CSV table once, appends exactly one audit-log
line, and returns the result of a full reoptimization on the updated
store. -/
theorem c10_mutation_effects :
    ∀ (solve : SchedInstance → SolveOutcome) (st : CMState)
      (cid : String) (avail : Bool) (aid : String) (hours : Int),
    ((updateCrewAvailabilityS solve st cid avail).2.2.countP isCsvWrite = 1 ∧
     (updateCrewAvailabilityS solve st cid avail).2.2.countP isLogAppend = 1 ∧
     Effect.writeCrewCsv (applyCrewUpdate st.store cid avail).crew ∈
       (updateCrewAvailabilityS solve st cid avail).2.2 ∧
     Effect.appendLog ("Crew " ++ cid ++ " availability changed to " ++ pyBoolStr avail) ∈
       (updateCrewAvailabilityS solve st cid avail).2.2 ∧
     (updateCrewAvailabilityS solve st cid avail).1 =
       (reoptimizeS solve { st with store := applyCrewUpdate st.store cid avail }).1) ∧
    ((addMaintenanceAlertS solve st aid hours).2.2.countP isCsvWrite = 1 ∧
     (addMaintenanceAlertS solve st aid hours).2.2.countP isLogAppend = 1 ∧
     Effect.writeAircraftCsv (applyMaintenanceUpdate st.store aid hours).aircraft ∈
       (addMaintenanceAlertS solve st aid hours).2.2 ∧
     Effect.appendLog ("Aircraft " ++ aid ++ " maintenance due in " ++ toString hours ++
         " hours") ∈
       (addMaintenanceAlertS solve st aid hours).2.2 ∧
     (addMaintenanceAlertS solve st aid hours).1 =
       (reoptimizeS solve { st with store := applyMaintenanceUpdate st.store aid hours }).1) := by
  intro solve st cid avail aid hours
  refine ⟨⟨rfl, rfl, ?_, ?_, rfl⟩, ⟨rfl, rfl, ?_, ?_, rfl⟩⟩ <;> simp [updateCrewAvailabilityS, addMaintenanceAlertS]

/-! ### C8/C9: response payloads and engine failure -/

/-- C8 (amended): a successful `reoptimize` response always carries one
schedule record per flight, an objective value and a `changes` entry,
with the literal `Initial optimization` exactly when the stored baseline
was not truthy; but `get_current_schedule` with an existing (truthy)
baseline returns only `{schedule, objective_value}` — its response has no
`changes` entry. -/
theorem c8_response_payload :
    ∀ (solve : SchedInstance → SolveOutcome) (st : CMState) (r : Response),
    ((reoptimizeS solve st).1 = Except.ok r →
      (r.schedule.length = st.store.flights.length ∧
       r.changes.isSome = true ∧
       (r.changes = some Changes.initial ↔ isTruthy st.previousSchedule = false))) ∧
    (isTruthy st.previousSchedule = true →
      (getCurrentScheduleS solve st).1 =
        Except.ok { schedule := st.previousSchedule.getD []
                    objectiveValue := st.previousObjective.getD 0
                    status := none, changes := none }) := by
  intro solve st r
  constructor
  · intro hok
    cases hsol : (solve st.store).hasSolution with
    | false => simp [reoptimizeS, runOptimizationS, hsol] at hok
    | true =>
        have hr : r =
            { schedule := extractScheduleS st.store (solve st.store).assignment
              objectiveValue := (solve st.store).objVal
              status := some (solve st.store).status
              changes := some (if isTruthy st.previousSchedule then
                Changes.list (compareSchedules (st.previousSchedule.getD [])
                  (extractScheduleS st.store (solve st.store).assignment))
                else Changes.initial) } := by
          simp [reoptimizeS, runOptimizationS, hsol] at hok
          exact hok.symm
        subst hr
        refine ⟨?_, rfl, ?_⟩
        · simp [extractScheduleS]
        · cases htr : isTruthy st.previousSchedule <;> simp [htr]
  · intro htr
    simp [getCurrentScheduleS, htr]

/-- C8 witness: part one of the theorem evaluated on the concrete initial
run over `instC1`. -/
theorem c8_witness :
    (reoptimizeS solveW stW).1 =
      Except.ok { schedule := [recA], objectiveValue := 0, status := some 2
                  changes := some Changes.initial } ∧
    ([recA].length = stW.store.flights.length ∧
     (some Changes.initial).isSome = true ∧
     (some Changes.initial = some Changes.initial ↔ isTruthy stW.previousSchedule = false)) :=
  ⟨rfl,
    (c8_response_payload solveW stW
      { schedule := [recA], objectiveValue := 0, status := some 2
        changes := some Changes.initial }).1 rfl⟩

/-- A state that already holds a (truthy) baseline schedule. -/
def stC8 : CMState :=
  { store := instC1, previousSchedule := some [recA], previousObjective := some 5 }

/-- C8 counterexample: with a cached baseline, the response returned by
`get_current_schedule` contains no `changes` entry at all (the source
returns only the `schedule` and `objective_value` keys), contradicting
the claim that every such response carries a `changes` field. -/
theorem c8_counterexample :
    (getCurrentScheduleS solveW stC8).1 =
      Except.ok { schedule := [recA], objectiveValue := 5
                  status := none, changes := none } ∧
    (Option.none : Option Changes).isSome = false :=
  ⟨rfl, rfl⟩

/-- C9 (amended): when the engine reports no loaded solution (e.g. it
proved the model infeasible), the unconditional `model.ObjVal` /
`Var.x` reads fail with the engine's attribute-retrieval error — the
code defines and raises no `InfeasibleModelError` — and the exception
propagates before `previous_schedule` is overwritten, so the
last-known-good Schedule remains available. -/
theorem c9_infeasible_preserves_baseline :
    ∀ (solve : SchedInstance → SolveOutcome) (st : CMState),
    (solve st.store).hasSolution = false →
    (reoptimizeS solve st).1 = Except.error SchedulerError.gurobiAttributeError ∧
    (reoptimizeS solve st).2 = st := by
  intro solve st h
  constructor <;> simp [reoptimizeS, runOptimizationS, h]

/-- An engine stub reporting `GRB.INFEASIBLE` (status 3) with no loaded
solution. -/
def solveInf : SchedInstance → SolveOutcome := fun _ =>
  { hasSolution := false, assignment := asgZero, objVal := 0, status := 3 }

/-- C9 witness: the amended theorem evaluated on `stC8` with the
infeasible engine stub. -/
theorem c9_witness :
    ((solveInf stC8.store).hasSolution = false) ∧
    ((reoptimizeS solveInf stC8).1 = Except.error SchedulerError.gurobiAttributeError ∧
     (reoptimizeS solveInf stC8).2 = stC8) :=
  ⟨rfl, c9_infeasible_preserves_baseline solveInf stC8 rfl⟩

/-- C9 counterexample: on an infeasible run the failure observed is the
engine's attribute error, not the `InfeasibleModelError` the claim names
(no code path constructs one); the stored baseline survives. -/
theorem c9_counterexample :
    (reoptimizeS solveInf stC8).1 = Except.error SchedulerError.gurobiAttributeError ∧
    (reoptimizeS solveInf stC8).1 ≠ Except.error SchedulerError.infeasibleModelError ∧
    (reoptimizeS solveInf stC8).2.previousSchedule = some [recA] := by
  refine ⟨rfl, ?_, rfl⟩
  intro h
  have h2 : Except.error SchedulerError.gurobiAttributeError =
      (Except.error SchedulerError.infeasibleModelError : Except SchedulerError Response) := h
  simp at h2
